import Mathlib

/-!
Shallow embedding of the `otc` runtime-detection subsystem
(`pkg/otc/runtime`): the data model (`Runtime`, `Result`, priorities),
the binary-family version parser (`parseVersion`), the stable priority
sort (`sortByPriority`), the containerd socket detector
(`ContainerdDetector.Detect` / `findSocket`), and the aggregating
orchestrator in both its historical shapes (override-unaware
`DetectorOld.Detect` and override-aware `Detector.detect` /
`Detector.detectOverride`).

Go slices become `List`, `error` becomes the inductive `GoError`,
`(T, error)` returns become `Except GoError T`, nil-able detector
interfaces become `Option`, and a detector's behaviour on the ambient
host is captured as its outcome value `Except GoError (List Runtime)`
(each orchestrator call invokes each detector at most once, so the
outcome value is a faithful stand-in for the interface).
-/

namespace OTC

/-- Go `Type` (`type Type string`): the category of container runtime. -/
abbrev RType := String

/-- `TypeOCI Type = "oci"` -/
def TypeOCI : RType := "oci"

/-- `TypeCRI Type = "cri"` -/
def TypeCRI : RType := "cri"

/-- `TypePodman Type = "podman"` -/
def TypePodman : RType := "podman"

/-- `TypeDocker Type = "docker"` -/
def TypeDocker : RType := "docker"

/-- `PriorityCRI = 100` -/
def PriorityCRI : Int := 100

/-- `PriorityOCI = 70` -/
def PriorityOCI : Int := 70

/-- `PriorityPodman = 50` -/
def PriorityPodman : Int := 50

/-- `PriorityDocker = 30` -/
def PriorityDocker : Int := 30

/-- Runtime name constants for the OTC_RUNTIME environment variable. -/
def RNRunc : String := "runc"

/-- `RNCrun = "crun"` -/
def RNCrun : String := "crun"

/-- `RNYouki = "youki"` -/
def RNYouki : String := "youki"

/-- `RNContainerd = "containerd"` -/
def RNContainerd : String := "containerd"

/-- `RNCRIO = "crio"` -/
def RNCRIO : String := "crio"

/-- `RNPodman = "podman"` -/
def RNPodman : String := "podman"

/-- `RNDocker = "docker"` -/
def RNDocker : String := "docker"

/-- Go struct `Runtime`: information about a detected container runtime.
(The Go field `Type` is rendered `Typ`, `Type` being a Lean keyword.) -/
structure Runtime where
  Name : String
  Typ : RType
  Version : String
  Path : String
  Priority : Int
deriving DecidableEq, Repr

/-- Go `error` values produced by this package, one constructor per
`fmt.Errorf` site, wrapped causes (`%w`) kept as sub-terms; `.msg` stands
for an arbitrary foreign error value (e.g. from an injected detector). -/
inductive GoError where
  /-- an arbitrary error value, e.g. from a fake/injected detector -/
  | msg (s : String)
  /-- `"invalid OTC_RUNTIME value: %s (valid: ...)"` -/
  | invalidOverride (ov : String)
  /-- `"docker runtime not yet supported"` -/
  | dockerNotSupported
  /-- `"OTC_RUNTIME=%s but <family> detector not configured"` -/
  | notConfigured (family ov : String)
  /-- `"failed to detect runtime %s: %w"` -/
  | detectFailed (ov : String) (e : GoError)
  /-- `"runtime %s not found on system"` -/
  | runtimeNotFound (ov : String)
  /-- `"no accessible socket found in: %v"` -/
  | noAccessibleSocket (paths : List String)
  /-- `"containerd socket not found: %w"` -/
  | socketNotFound (e : GoError)
  /-- `"failed to get containerd version from CRI: %w"` -/
  | versionQueryFailed (e : GoError)
deriving DecidableEq, Repr

instance : Inhabited GoError := ⟨GoError.msg ""⟩

/-- Go struct `Result`: the results of runtime detection. `Selected`
(`*Runtime`, a pointer to `Runtimes[0]` or nil) becomes `Option Runtime`. -/
structure Result where
  Runtimes : List Runtime
  Selected : Option Runtime
  Warnings : List GoError
deriving DecidableEq, Repr

/-- `HasWarnings` returns true if any detector encountered non-fatal errors. -/
def Result.HasWarnings (r : Result) : Bool :=
  r.Warnings.length > 0

/-! ### Binary-family version parsing (`oci.go`) -/

/-- Model of Go `strings.Fields`: split on whitespace runs, dropping
empty segments. (`Char.isWhitespace` models `unicode.IsSpace` on the
ASCII range, which covers all runtime `--version` outputs.) -/
def goFields (s : String) : List String :=
  ((s.data.splitOnP fun c => c.isWhitespace).filter fun w => !w.isEmpty).map
    fun w => String.mk w

/-- Model of Go `strings.EqualFold`, ASCII simple case folding. -/
def equalFold (a b : String) : Bool :=
  a.data.map Char.toLower == b.data.map Char.toLower

/-- The loop body of `parseVersion`: scan the fields for the first one
case-insensitively equal to "version" that has a successor, and return
that successor; otherwise return `""`. -/
def findVersionToken : List String → String
  | f :: next :: rest =>
    if equalFold f "version" then next else findVersionToken (next :: rest)
  | _ => ""

/-- `parseVersion` extracts the version string from runtime `--version`
output: the token following the first case-insensitive "version" field. -/
def parseVersion (output : String) : String :=
  findVersionToken (goFields output)

/-! ### Priority ordering (`sort.go`) -/

/-- Insert `x` after every element of strictly greater priority: the
insertion step of a stable descending sort. -/
def insertDesc (x : Runtime) : List Runtime → List Runtime
  | [] => [x]
  | y :: ys => if x.Priority < y.Priority then y :: insertDesc x ys else x :: y :: ys

/-- `sortByPriority` sorts runtimes by priority in descending order
(highest first); equal-priority runtimes keep their detection order.
Go uses `sort.SliceStable` with `less i j := Priority i > Priority j`;
a stable sort's output is uniquely determined by the comparator, so the
stable insertion sort below is the same function. -/
def sortByPriority : List Runtime → List Runtime
  | [] => []
  | x :: xs => insertDesc x (sortByPriority xs)

/-! ### Containerd socket detector (`containerd.go`) -/

/-- What `os.Stat` reports for one filesystem path: the path is absent
(or `Stat` errors), or present as a socket special file
(`Mode()&ModeSocket ≠ 0`), or present as some non-socket entry. -/
inductive FileKind where
  | absent
  | socketFile
  | nonSocketFile
deriving DecidableEq, Repr

/-- The ambient host state a containerd detection call reads: the
`os.Stat` result per path, and the outcome of the CRI version RPC
(`getVersion`) per socket path, deadline expiry and connection failure
included among its error outcomes. -/
structure Host where
  stat : String → FileKind
  criVersion : String → Except GoError String

/-- Standard containerd socket paths in order of preference. -/
def containerdSocketPaths : List String :=
  ["/run/containerd/containerd.sock",
   "/var/run/containerd/containerd.sock",
   "/run/k3s/containerd/containerd.sock"]

/-- Go `ContainerdDetector` (the `timeout` field is absorbed into
`Host.criVersion`, whose error outcomes include deadline expiry). -/
structure ContainerdDetector where
  socketPaths : List String
deriving DecidableEq, Repr

/-- `NewContainerdDetector` creates a detector with default settings. -/
def NewContainerdDetector : ContainerdDetector :=
  ⟨containerdSocketPaths⟩

/-- Modelled from the spec: the `Containerd` runtime-name constant used
by `ContainerdDetector.Detect` is declared outside the available source
(only its uses appear); the spec's name set and the tests fix its value
to "containerd". -/
def Containerd : String := "containerd"

/-- The loop of `findSocket`: the first path whose `os.Stat` succeeds
and reports a socket-type file; a non-socket entry is skipped exactly
like an absent path. -/
def findFirstSocket (h : Host) : List String → Option String
  | [] => none
  | p :: rest =>
    match h.stat p with
    | FileKind.socketFile => some p
    | FileKind.absent => findFirstSocket h rest
    | FileKind.nonSocketFile => findFirstSocket h rest

/-- `findSocket` searches for the first accessible containerd socket. -/
def ContainerdDetector.findSocket (d : ContainerdDetector) (h : Host) :
    Except GoError String :=
  match findFirstSocket h d.socketPaths with
  | some p => Except.ok p
  | none => Except.error (GoError.noAccessibleSocket d.socketPaths)

/-- `ContainerdDetector.Detect` attempts to detect containerd via the
CRI socket. -/
def ContainerdDetector.Detect (d : ContainerdDetector) (h : Host) :
    Except GoError (List Runtime) :=
  match d.findSocket h with
  | Except.error e => Except.error (GoError.socketNotFound e)
  | Except.ok socket =>
    match h.criVersion socket with
    | Except.error e => Except.error (GoError.versionQueryFailed e)
    | Except.ok version =>
      Except.ok [{ Name := Containerd, Typ := TypeCRI, Version := version,
                   Path := socket, Priority := PriorityCRI }]

/-! ### Aggregating orchestrator, override-unaware historical shape
(the older `Detector` in the source, without an `override` field) -/

instance {ε α : Type} [DecidableEq ε] [DecidableEq α] :
    DecidableEq (Except ε α) := fun a b =>
  match a, b with
  | Except.ok x, Except.ok y =>
    if h : x = y then isTrue (by rw [h]) else isFalse (by simp [h])
  | Except.error x, Except.error y =>
    if h : x = y then isTrue (by rw [h]) else isFalse (by simp [h])
  | Except.ok _, Except.error _ => isFalse (by simp)
  | Except.error _, Except.ok _ => isFalse (by simp)

/-- A configured family detector slot, as seen by one orchestrator call:
`none` models a nil interface, `some o` a detector whose `Detect` call
would return outcome `o`. -/
abbrev Slot := Option (Except GoError (List Runtime))

/-- The older `Detector` struct: oci, cri, podman — no override field. -/
structure DetectorOld where
  oci : Slot
  cri : Slot
  podman : Slot
deriving DecidableEq, Repr

/-- The older `Detector.Detect`: aggregate all configured detectors,
collect failures as warnings, fail with the first warning when nothing
was found, otherwise sort by priority and select the head. -/
def DetectorOld.Detect (d : DetectorOld) : Except GoError Result :=
  let acc0 : List Runtime × List GoError := ([], [])
  let acc1 :=
    match d.oci with
    | none => acc0
    | some (Except.error e) => (acc0.1, acc0.2 ++ [e])
    | some (Except.ok rs) => (acc0.1 ++ rs, acc0.2)
  let acc2 :=
    match d.cri with
    | none => acc1
    | some (Except.error e) => (acc1.1, acc1.2 ++ [e])
    | some (Except.ok rs) => (acc1.1 ++ rs, acc1.2)
  let acc3 :=
    match d.podman with
    | none => acc2
    | some (Except.error e) => (acc2.1, acc2.2 ++ [e])
    | some (Except.ok rs) => (acc2.1 ++ rs, acc2.2)
  let runtimes := acc3.1
  let warnings := acc3.2
  if runtimes = [] ∧ warnings ≠ [] then
    Except.error warnings.head!
  else
    let sorted := sortByPriority runtimes
    Except.ok { Runtimes := sorted, Selected := sorted.head?, Warnings := warnings }

/-! ### Aggregating orchestrator, override-aware shape -/

/-- The override-aware `Detector` struct. -/
structure Detector where
  oci : Slot
  cri : Slot
  podman : Slot
  override : String
deriving DecidableEq, Repr

/-- The fold over the three configured detectors in declared order
(oci, cri, podman): merged runtimes and accumulated warnings. -/
def Detector.collect (d : Detector) : List Runtime × List GoError :=
  let acc0 : List Runtime × List GoError := ([], [])
  let acc1 :=
    match d.oci with
    | none => acc0
    | some (Except.error e) => (acc0.1, acc0.2 ++ [e])
    | some (Except.ok rs) => (acc0.1 ++ rs, acc0.2)
  let acc2 :=
    match d.cri with
    | none => acc1
    | some (Except.error e) => (acc1.1, acc1.2 ++ [e])
    | some (Except.ok rs) => (acc1.1 ++ rs, acc1.2)
  match d.podman with
  | none => acc2
  | some (Except.error e) => (acc2.1, acc2.2 ++ [e])
  | some (Except.ok rs) => (acc2.1 ++ rs, acc2.2)

/-- The `switch d.override` of `detectOverride`: an immediate hard
failure (outer `error`: detector not configured / docker unsupported /
invalid value), or the chosen family detector's own outcome. -/
def Detector.overrideOutcome (d : Detector) :
    Except GoError (Except GoError (List Runtime)) :=
  if d.override = RNRunc ∨ d.override = RNCrun ∨ d.override = RNYouki then
    match d.oci with
    | none => Except.error (GoError.notConfigured "OCI" d.override)
    | some o => Except.ok o
  else if d.override = RNContainerd ∨ d.override = RNCRIO then
    match d.cri with
    | none => Except.error (GoError.notConfigured "CRI" d.override)
    | some o => Except.ok o
  else if d.override = RNPodman then
    match d.podman with
    | none => Except.error (GoError.notConfigured "Podman" d.override)
    | some o => Except.ok o
  else if d.override = RNDocker then
    Except.error GoError.dockerNotSupported
  else
    Except.error (GoError.invalidOverride d.override)

/-- `detectOverride` detects only the runtime named in the override:
dispatch on the override name, wrap a chosen detector's failure in
"failed to detect runtime", filter its runtimes to exact name matches,
and select the first match (Go returns `filtered` with `&filtered[0]`;
here `filtered` is destructured as `f :: fs`). -/
def Detector.detectOverride (d : Detector) : Except GoError Result :=
  match d.overrideOutcome with
  | Except.error e => Except.error e
  | Except.ok (Except.error e) => Except.error (GoError.detectFailed d.override e)
  | Except.ok (Except.ok runtimes) =>
    match runtimes.filter fun rt => rt.Name = d.override with
    | [] => Except.error (GoError.runtimeNotFound d.override)
    | f :: fs => Except.ok { Runtimes := f :: fs, Selected := some f, Warnings := [] }

/-- The override-aware `Detector.Detect` (rendered `detect`): dispatch
to `detectOverride` when an override is set, otherwise aggregate all
configured detectors exactly as the older shape does. -/
def Detector.detect (d : Detector) : Except GoError Result :=
  if d.override ≠ "" then
    d.detectOverride
  else
    if d.collect.1 = [] ∧ d.collect.2 ≠ [] then
      Except.error d.collect.2.head!
    else
      Except.ok { Runtimes := sortByPriority d.collect.1,
                  Selected := (sortByPriority d.collect.1).head?,
                  Warnings := d.collect.2 }

/-! ### Lemmas about `sortByPriority` -/

theorem insertDesc_perm (x : Runtime) (l : List Runtime) :
    (insertDesc x l).Perm (x :: l) := by
  induction l with
  | nil => exact List.Perm.refl _
  | cons y ys ih =>
    by_cases hxy : x.Priority < y.Priority
    · rw [insertDesc, if_pos hxy]
      exact (ih.cons y).trans (List.Perm.swap x y ys)
    · rw [insertDesc, if_neg hxy]

theorem sortByPriority_perm (l : List Runtime) :
    (sortByPriority l).Perm l := by
  induction l with
  | nil => exact List.Perm.refl _
  | cons x xs ih =>
    exact (insertDesc_perm x (sortByPriority xs)).trans (ih.cons x)

theorem mem_insertDesc {z x : Runtime} {l : List Runtime} :
    z ∈ insertDesc x l ↔ z = x ∨ z ∈ l := by
  rw [(insertDesc_perm x l).mem_iff, List.mem_cons]

theorem insertDesc_pairwise {x : Runtime} {l : List Runtime}
    (h : l.Pairwise fun a b => b.Priority ≤ a.Priority) :
    (insertDesc x l).Pairwise fun a b => b.Priority ≤ a.Priority := by
  induction l with
  | nil => simp [insertDesc]
  | cons y ys ih =>
    rw [List.pairwise_cons] at h
    by_cases hxy : x.Priority < y.Priority
    · rw [insertDesc, if_pos hxy]
      refine List.pairwise_cons.mpr ⟨?_, ih h.2⟩
      intro z hz
      rcases mem_insertDesc.1 hz with rfl | hz'
      · exact le_of_lt hxy
      · exact h.1 z hz'
    · rw [insertDesc, if_neg hxy]
      refine List.pairwise_cons.mpr ⟨?_, List.pairwise_cons.mpr h⟩
      intro z hz
      rcases List.mem_cons.1 hz with rfl | hz'
      · exact not_lt.mp hxy
      · exact le_trans (h.1 z hz') (not_lt.mp hxy)

theorem sortByPriority_pairwise (l : List Runtime) :
    (sortByPriority l).Pairwise fun a b => b.Priority ≤ a.Priority := by
  induction l with
  | nil => simp [sortByPriority]
  | cons x xs ih => exact insertDesc_pairwise ih

theorem insertDesc_filter_priority (p : Int) (x : Runtime) (l : List Runtime) :
    (insertDesc x l).filter (fun r => r.Priority = p) =
      (x :: l).filter (fun r => r.Priority = p) := by
  induction l with
  | nil => rfl
  | cons y ys ih =>
    by_cases hxy : x.Priority < y.Priority
    · rw [insertDesc, if_pos hxy]
      by_cases hyp : y.Priority = p
      · have hxp : ¬ x.Priority = p := by
          intro hx; rw [hx, ← hyp] at hxy; exact lt_irrefl _ hxy
        simp only [List.filter_cons, hyp, decide_eq_true_eq, if_pos, hxp,
          decide_eq_false_iff_not] at *
        simp [List.filter_cons, hyp, hxp, ih]
      · simp [List.filter_cons, hyp, ih, List.filter_cons (x := x)]
    · rw [insertDesc, if_neg hxy]

theorem sortByPriority_filter_priority (p : Int) (l : List Runtime) :
    (sortByPriority l).filter (fun r => r.Priority = p) =
      l.filter (fun r => r.Priority = p) := by
  induction l with
  | nil => rfl
  | cons x xs ih =>
    rw [sortByPriority, insertDesc_filter_priority, List.filter_cons,
      List.filter_cons, ih]

theorem sortByPriority_head_max {l : List Runtime} {s : Runtime}
    (h : (sortByPriority l).head? = some s) :
    s ∈ l ∧ ∀ r ∈ l, r.Priority ≤ s.Priority := by
  rcases hsort : sortByPriority l with _ | ⟨a, t⟩
  · rw [hsort] at h; exact absurd h (by simp)
  · rw [hsort] at h
    have ha : a = s := by simpa using h
    subst ha
    have hperm := sortByPriority_perm l
    rw [hsort] at hperm
    have hpw := sortByPriority_pairwise l
    rw [hsort, List.pairwise_cons] at hpw
    constructor
    · exact hperm.mem_iff.mp (List.mem_cons_self a t)
    · intro r hr
      rcases List.mem_cons.1 (hperm.mem_iff.mpr hr) with rfl | hrt
      · exact le_refl _
      · exact hpw.1 r hrt

/-! ### Lemmas about `findVersionToken` -/

theorem findVersionToken_cons_cons (f next : String) (rest : List String) :
    findVersionToken (f :: next :: rest) =
      if equalFold f "version" then next else findVersionToken (next :: rest) := rfl

theorem findVersionToken_append (pre l : List String)
    (h : ∀ g ∈ pre, equalFold g "version" = false) :
    findVersionToken (pre ++ l) = findVersionToken l := by
  induction pre with
  | nil => rfl
  | cons g pre' ih =>
    have hg : equalFold g "version" = false := h g (List.mem_cons_self g pre')
    have h' : ∀ g' ∈ pre', equalFold g' "version" = false := fun g' hg' =>
      h g' (List.mem_cons_of_mem g hg')
    rcases hrest : pre' ++ l with _ | ⟨a, t⟩
    · rcases List.append_eq_nil.1 hrest with ⟨rfl, rfl⟩
      rfl
    · rw [List.cons_append, hrest, findVersionToken_cons_cons, hg, if_neg]
      · rw [← hrest, ih h']
      · simp

/-- Example runtimes (used to instantiate proved theorems at concrete
inputs). -/
def rtRunc : Runtime :=
  ⟨"runc", TypeOCI, "1.1.12", "/usr/bin/runc", PriorityOCI⟩

/-- A crun binary runtime example. -/
def rtCrun : Runtime :=
  ⟨"crun", TypeOCI, "1.8.7", "/usr/bin/crun", PriorityOCI⟩

/-- A containerd socket runtime example. -/
def rtContainerd : Runtime :=
  ⟨"containerd", TypeCRI, "1.7.0", "/run/containerd/containerd.sock", PriorityCRI⟩

/-! ### Claims -/

/-- C8: `sortByPriority` rearranges a runtime sequence into descending
priority order, stably: the output is a permutation of the input, every
earlier output position carries priority ≥ every later one (so for any
pair with p1 > p2 the p1 runtime is strictly before the p2 runtime), and
for each priority value the subsequence of runtimes with that priority
is exactly the input (detection-order) subsequence, making the overall
ordering deterministic. -/
theorem sortByPriority_desc_stable (l : List Runtime) :
    (sortByPriority l).Perm l ∧
    (∀ i j : Fin (sortByPriority l).length, (i : Nat) < (j : Nat) →
      ((sortByPriority l).get j).Priority ≤ ((sortByPriority l).get i).Priority) ∧
    (∀ p : Int, (sortByPriority l).filter (fun r => r.Priority = p) =
      l.filter (fun r => r.Priority = p)) := by
  refine ⟨sortByPriority_perm l, ?_, fun p => sortByPriority_filter_priority p l⟩
  intro i j hij
  exact List.pairwise_iff_get.mp (sortByPriority_pairwise l) i j hij

/-- Witness for C8 at a concrete three-runtime list. -/
theorem sortByPriority_desc_stable_witness :
    (0 : Nat) < (1 : Nat) ∧
    ((sortByPriority [rtRunc, rtContainerd, rtCrun]).get ⟨1, by decide⟩).Priority ≤
      ((sortByPriority [rtRunc, rtContainerd, rtCrun]).get ⟨0, by decide⟩).Priority :=
  ⟨by decide,
   (sortByPriority_desc_stable [rtRunc, rtContainerd, rtCrun]).2.1
     ⟨0, by decide⟩ ⟨1, by decide⟩ (by decide)⟩

/-- C6: `parseVersion` returns the whitespace-separated token
immediately following the first case-insensitive occurrence of the word
"version" (no earlier field folds to "version"), and returns `""` when
the keyword is absent from the fields or is the last field; in
particular on the four outputs named by the spec. -/
theorem parseVersion_spec :
    (∀ (pre : List String) (f v : String) (rest : List String),
      (∀ g ∈ pre, equalFold g "version" = false) →
      equalFold f "version" = true →
      findVersionToken (pre ++ f :: v :: rest) = v) ∧
    (∀ fs : List String, (∀ g ∈ fs, equalFold g "version" = false) →
      findVersionToken fs = "") ∧
    (∀ (pre : List String) (f : String),
      (∀ g ∈ pre, equalFold g "version" = false) →
      findVersionToken (pre ++ [f]) = "") ∧
    parseVersion "runc version 1.1.12\ncommit: v1.1.12-0-g51d5e94" = "1.1.12" ∧
    parseVersion "runtime Version 1.2.3" = "1.2.3" ∧
    parseVersion "runtime 1.2.3" = "" ∧
    parseVersion "runtime version" = "" := by
  refine ⟨?_, ?_, ?_, by decide, by decide, by decide, by decide⟩
  · intro pre f v rest hpre hf
    rw [findVersionToken_append pre _ hpre, findVersionToken_cons_cons, hf,
      if_pos rfl]
  · intro fs hfs
    have := findVersionToken_append fs [] hfs
    rwa [List.append_nil] at this
  · intro pre f hpre
    rw [findVersionToken_append pre _ hpre]
    rfl

/-- Witness for C6: the general clause at concrete fields. -/
theorem parseVersion_spec_witness :
    (∀ g ∈ ["runc"], equalFold g "version" = false) ∧
    equalFold "version" "version" = true ∧
    findVersionToken (["runc"] ++ "version" :: "1.1.12" :: ["commit:"]) = "1.1.12" :=
  ⟨by decide, by decide,
   parseVersion_spec.1 ["runc"] "version" "1.1.12" ["commit:"] (by decide) (by decide)⟩

/-! ### Helper lemmas about the orchestrator -/

theorem detect_override_eq (d : Detector) (h : d.override ≠ "") :
    d.detect = d.detectOverride := by
  unfold Detector.detect
  rw [if_pos h]

theorem detect_normal_eq (d : Detector) (h : d.override = "") :
    d.detect =
      if d.collect.1 = [] ∧ d.collect.2 ≠ [] then
        Except.error d.collect.2.head!
      else
        Except.ok { Runtimes := sortByPriority d.collect.1,
                    Selected := (sortByPriority d.collect.1).head?,
                    Warnings := d.collect.2 } := by
  unfold Detector.detect
  rw [if_neg (by simp [h])]

theorem detectOverride_hard_failure (d : Detector) (e : GoError)
    (h : d.overrideOutcome = Except.error e) :
    d.detectOverride = Except.error e := by
  unfold Detector.detectOverride
  rw [h]

/-- C1: every successful result of the orchestrator's `Detect` — normal
mode or override mode — has `Selected` present iff `Runtimes` is
non-empty, and `Selected` equal to the head of `Runtimes`. -/
theorem detect_selected_invariant (d : Detector) (res : Result)
    (h : d.detect = Except.ok res) :
    (res.Selected.isSome ↔ res.Runtimes ≠ []) ∧
      res.Selected = res.Runtimes.head? := by
  unfold Detector.detect at h
  split at h
  · unfold Detector.detectOverride at h
    split at h
    · simp at h
    · simp at h
    · split at h
      · simp at h
      · rw [Except.ok.injEq] at h
        subst h
        simp
  · split at h
    · simp at h
    · rw [Except.ok.injEq] at h
      subst h
      rcases hs : sortByPriority d.collect.1 with _ | ⟨a, t⟩ <;> simp [hs]

/-- Witness for C1 at a concrete one-runtime detection. -/
theorem detect_selected_invariant_witness :
    Detector.detect ⟨some (Except.ok [rtRunc]), none, none, ""⟩ =
        Except.ok ⟨[rtRunc], some rtRunc, []⟩ ∧
      ((Result.Selected ⟨[rtRunc], some rtRunc, []⟩).isSome ↔
          Result.Runtimes ⟨[rtRunc], some rtRunc, []⟩ ≠ []) ∧
        Result.Selected ⟨[rtRunc], some rtRunc, []⟩ =
          (Result.Runtimes ⟨[rtRunc], some rtRunc, []⟩).head? :=
  ⟨by decide,
   detect_selected_invariant ⟨some (Except.ok [rtRunc]), none, none, ""⟩
     ⟨[rtRunc], some rtRunc, []⟩ (by decide)⟩

/-- C9: the override-unaware historical orchestrator and the
override-aware orchestrator with an empty override string produce
identical outcomes (same runtimes, selected, warnings, and error) for
every configuration of family detectors. -/
theorem detect_old_new_agree (o c p : Slot) :
    DetectorOld.Detect ⟨o, c, p⟩ = Detector.detect ⟨o, c, p, ""⟩ := by
  rcases o with _ | (e | rs) <;> rcases c with _ | (e' | cs) <;>
    rcases p with _ | (e'' | ps) <;> rfl

/-- C2: in normal mode, when the merged runtime sequence is empty:
with at least one recorded warning `Detect` hard-fails with the first
recorded warning (first in declared oci, cri, podman order); with no
warnings (in particular no detectors configured) it succeeds with an
empty result — no runtimes, no selection, no warnings. -/
theorem detect_empty_policy (d : Detector) (hov : d.override = "") :
    (∀ (w : GoError) (ws : List GoError),
      d.collect = ([], w :: ws) → d.detect = Except.error w) ∧
    (d.collect = ([], []) → d.detect = Except.ok ⟨[], none, []⟩) ∧
    (d.oci = none → d.cri = none → d.podman = none →
      d.detect = Except.ok ⟨[], none, []⟩) := by
  have hnorm := detect_normal_eq d hov
  refine ⟨?_, ?_, ?_⟩
  · intro w ws hc
    rw [hnorm, hc, if_pos (by simp)]
    rfl
  · intro hc
    rw [hnorm, hc, if_neg (by simp)]
    simp [sortByPriority]
  · intro h1 h2 h3
    have hc : d.collect = ([], []) := by
      unfold Detector.collect
      rw [h1, h2, h3]
    rw [hnorm, hc, if_neg (by simp)]
    simp [sortByPriority]

/-- Witness for C2 at a concrete all-failed and a concrete unconfigured
orchestrator. -/
theorem detect_empty_policy_witness :
    (Detector.override ⟨some (Except.error (GoError.msg "oci boom")),
        some (Except.error (GoError.msg "cri boom")), none, ""⟩ = "" ∧
      Detector.collect ⟨some (Except.error (GoError.msg "oci boom")),
        some (Except.error (GoError.msg "cri boom")), none, ""⟩ =
        ([], [GoError.msg "oci boom", GoError.msg "cri boom"]) ∧
      Detector.detect ⟨some (Except.error (GoError.msg "oci boom")),
        some (Except.error (GoError.msg "cri boom")), none, ""⟩ =
        Except.error (GoError.msg "oci boom")) ∧
    Detector.detect ⟨none, none, none, ""⟩ = Except.ok ⟨[], none, []⟩ :=
  ⟨⟨rfl, by decide,
    (detect_empty_policy _ rfl).1 (GoError.msg "oci boom")
      [GoError.msg "cri boom"] (by decide)⟩,
   (detect_empty_policy ⟨none, none, none, ""⟩ rfl).2.2 rfl rfl rfl⟩

/-- C3: in normal mode a failing family detector contributes zero
runtimes and exactly one warning record, in declared position, without
disturbing the other detectors' contributions (clauses for each of the
oci, cri, podman slots); whenever the merged sequence is non-empty,
`Detect` succeeds with the priority-sorted merge, the full warnings
list, and `Selected` a highest-priority runtime of the merge; in
particular with one of two configured detectors failing and the other
finding runtimes, the call succeeds with exactly one warning. -/
theorem detect_partial_failure :
    (∀ (c p : Slot) (ov : String) (e : GoError),
      (Detector.collect ⟨some (Except.error e), c, p, ov⟩).1 =
        (Detector.collect ⟨none, c, p, ov⟩).1 ∧
      (Detector.collect ⟨some (Except.error e), c, p, ov⟩).2 =
        e :: (Detector.collect ⟨none, c, p, ov⟩).2) ∧
    (∀ (o p : Slot) (ov : String) (e : GoError),
      (Detector.collect ⟨o, some (Except.error e), p, ov⟩).1 =
        (Detector.collect ⟨o, none, p, ov⟩).1 ∧
      ∃ pre post,
        (Detector.collect ⟨o, some (Except.error e), p, ov⟩).2 = pre ++ e :: post ∧
        (Detector.collect ⟨o, none, p, ov⟩).2 = pre ++ post) ∧
    (∀ (o c : Slot) (ov : String) (e : GoError),
      (Detector.collect ⟨o, c, some (Except.error e), ov⟩).1 =
        (Detector.collect ⟨o, c, none, ov⟩).1 ∧
      (Detector.collect ⟨o, c, some (Except.error e), ov⟩).2 =
        (Detector.collect ⟨o, c, none, ov⟩).2 ++ [e]) ∧
    (∀ (d : Detector) (r : Runtime) (rest : List Runtime),
      d.override = "" → d.collect.1 = r :: rest →
      d.detect = Except.ok ⟨sortByPriority (r :: rest),
        (sortByPriority (r :: rest)).head?, d.collect.2⟩ ∧
      ∃ s, (sortByPriority (r :: rest)).head? = some s ∧ s ∈ r :: rest ∧
        ∀ x ∈ r :: rest, x.Priority ≤ s.Priority) ∧
    (∀ (e : GoError) (r : Runtime) (rs : List Runtime),
      Detector.detect ⟨some (Except.error e), some (Except.ok (r :: rs)), none, ""⟩ =
        Except.ok ⟨sortByPriority (r :: rs), (sortByPriority (r :: rs)).head?, [e]⟩) := by
  refine ⟨?_, ?_, ?_, ?_, ?_⟩
  · intro c p ov e
    constructor <;>
      (rcases c with _ | (e' | cs) <;> rcases p with _ | (e'' | ps) <;> rfl)
  · intro o p ov e
    refine ⟨?_, ?_⟩
    · rcases o with _ | (e0 | rs) <;> rcases p with _ | (e1 | ps) <;> rfl
    · rcases o with _ | (e0 | rs) <;> rcases p with _ | (e1 | ps) <;>
        first
          | exact ⟨[], [], rfl, rfl⟩
          | exact ⟨[e0], [], rfl, rfl⟩
          | exact ⟨[], [e1], rfl, rfl⟩
          | exact ⟨[e0], [e1], rfl, rfl⟩
  · intro o c ov e
    exact ⟨rfl, rfl⟩
  · intro d r rest hov hc
    have hnorm := detect_normal_eq d hov
    constructor
    · rw [hnorm, hc, if_neg (by simp)]
    · rcases hs : sortByPriority (r :: rest) with _ | ⟨a, t⟩
      · have hp := sortByPriority_perm (r :: rest)
        rw [hs] at hp
        simpa using hp.length_eq
      · have hmax := sortByPriority_head_max (l := r :: rest) (s := a)
          (by rw [hs]; rfl)
        exact ⟨a, rfl, hmax.1, hmax.2⟩
  · intro e r rs
    rfl

/-- Witness for C3: one failing and one succeeding detector. -/
theorem detect_partial_failure_witness :
    (Detector.override ⟨some (Except.error (GoError.msg "oci failed")),
        some (Except.ok [rtContainerd]), none, ""⟩ = "" ∧
      (Detector.collect ⟨some (Except.error (GoError.msg "oci failed")),
        some (Except.ok [rtContainerd]), none, ""⟩).1 = [rtContainerd]) ∧
    Detector.detect ⟨some (Except.error (GoError.msg "oci failed")),
        some (Except.ok [rtContainerd]), none, ""⟩ =
      Except.ok ⟨sortByPriority [rtContainerd], (sortByPriority [rtContainerd]).head?,
        (Detector.collect ⟨some (Except.error (GoError.msg "oci failed")),
          some (Except.ok [rtContainerd]), none, ""⟩).2⟩ ∧
    ∃ s, (sortByPriority [rtContainerd]).head? = some s ∧ s ∈ [rtContainerd] ∧
      ∀ x ∈ [rtContainerd], x.Priority ≤ s.Priority :=
  ⟨⟨rfl, by decide⟩,
   detect_partial_failure.2.2.2.1
     ⟨some (Except.error (GoError.msg "oci failed")),
      some (Except.ok [rtContainerd]), none, ""⟩
     rtContainerd [] rfl (by decide)⟩

theorem detectOverride_filter (d : Detector) (rs : List Runtime)
    (h : d.overrideOutcome = Except.ok (Except.ok rs)) :
    d.detectOverride =
      match rs.filter fun rt => rt.Name = d.override with
      | [] => Except.error (GoError.runtimeNotFound d.override)
      | f :: fs => Except.ok ⟨f :: fs, some f, []⟩ := by
  unfold Detector.detectOverride
  rw [h]

/-- C4: an override is validated before any detector output is used:
an unrecognized name fails with "invalid override value" whatever the
detectors hold; "docker" fails with "not supported" whatever the
detectors hold; a recognized name whose single capable family detector
is nil fails with "<family> detector not configured", never falling
back to another detector. -/
theorem detect_override_validation :
    (∀ d : Detector, d.override ≠ "" →
      d.override ∉ [RNRunc, RNCrun, RNYouki, RNContainerd, RNCRIO, RNPodman, RNDocker] →
      d.detect = Except.error (GoError.invalidOverride d.override)) ∧
    (∀ d : Detector, d.override = RNDocker →
      d.detect = Except.error GoError.dockerNotSupported) ∧
    (∀ d : Detector, d.override = RNRunc ∨ d.override = RNCrun ∨ d.override = RNYouki →
      d.oci = none → d.detect = Except.error (GoError.notConfigured "OCI" d.override)) ∧
    (∀ d : Detector, d.override = RNContainerd ∨ d.override = RNCRIO →
      d.cri = none → d.detect = Except.error (GoError.notConfigured "CRI" d.override)) ∧
    (∀ d : Detector, d.override = RNPodman →
      d.podman = none → d.detect = Except.error (GoError.notConfigured "Podman" d.override)) := by
  refine ⟨?_, ?_, ?_, ?_, ?_⟩
  · intro d hne hmem
    simp only [List.mem_cons, List.not_mem_nil, or_false, not_or] at hmem
    obtain ⟨h1, h2, h3, h4, h5, h6, h7⟩ := hmem
    rw [detect_override_eq d hne]
    have hout : d.overrideOutcome = Except.error (GoError.invalidOverride d.override) := by
      unfold Detector.overrideOutcome
      rw [if_neg (by simp [h1, h2, h3]), if_neg (by simp [h4, h5]), if_neg h6, if_neg h7]
    exact detectOverride_hard_failure d _ hout
  · intro d hov
    rw [detect_override_eq d (by rw [hov]; decide)]
    have hout : d.overrideOutcome = Except.error GoError.dockerNotSupported := by
      unfold Detector.overrideOutcome
      rw [if_neg (by rw [hov]; decide), if_neg (by rw [hov]; decide),
        if_neg (by rw [hov]; decide), if_pos hov]
    exact detectOverride_hard_failure d _ hout
  · intro d hmem hoci
    rw [detect_override_eq d (by rcases hmem with h | h | h <;> rw [h] <;> decide)]
    have hout : d.overrideOutcome =
        Except.error (GoError.notConfigured "OCI" d.override) := by
      unfold Detector.overrideOutcome
      rw [if_pos hmem, hoci]
    exact detectOverride_hard_failure d _ hout
  · intro d hmem hcri
    rw [detect_override_eq d (by rcases hmem with h | h <;> rw [h] <;> decide)]
    have hout : d.overrideOutcome =
        Except.error (GoError.notConfigured "CRI" d.override) := by
      unfold Detector.overrideOutcome
      rw [if_neg (by rcases hmem with h | h <;> rw [h] <;> decide), if_pos hmem, hcri]
    exact detectOverride_hard_failure d _ hout
  · intro d hov hpod
    rw [detect_override_eq d (by rw [hov]; decide)]
    have hout : d.overrideOutcome =
        Except.error (GoError.notConfigured "Podman" d.override) := by
      unfold Detector.overrideOutcome
      rw [if_neg (by rw [hov]; decide), if_neg (by rw [hov]; decide),
        if_pos hov, hpod]
    exact detectOverride_hard_failure d _ hout

/-- Witness for C4: override "docker" with an OCI detector configured. -/
theorem detect_override_validation_witness :
    Detector.override ⟨some (Except.ok [rtRunc]), none, none, "docker"⟩ = RNDocker ∧
    Detector.detect ⟨some (Except.ok [rtRunc]), none, none, "docker"⟩ =
      Except.error GoError.dockerNotSupported :=
  ⟨rfl,
   detect_override_validation.2.1
     ⟨some (Except.ok [rtRunc]), none, none, "docker"⟩ rfl⟩

/-- C5: with a recognized override whose family detector is configured
and succeeds, `Detect` filters that detector's output to exact name
matches; zero matches is a "runtime not found" hard failure, one or
more matches is a successful result whose runtimes are exactly the
matches and whose selected is the first match (clauses for each of the
OCI, CRI and Podman name families). -/
theorem detect_override_filter_spec :
    (∀ (d : Detector) (rs : List Runtime),
      d.override = RNRunc ∨ d.override = RNCrun ∨ d.override = RNYouki →
      d.oci = some (Except.ok rs) →
      ((rs.filter fun rt => rt.Name = d.override) = [] →
        d.detect = Except.error (GoError.runtimeNotFound d.override)) ∧
      (∀ (f : Runtime) (fs : List Runtime),
        (rs.filter fun rt => rt.Name = d.override) = f :: fs →
        d.detect = Except.ok ⟨f :: fs, some f, []⟩)) ∧
    (∀ (d : Detector) (rs : List Runtime),
      d.override = RNContainerd ∨ d.override = RNCRIO →
      d.cri = some (Except.ok rs) →
      ((rs.filter fun rt => rt.Name = d.override) = [] →
        d.detect = Except.error (GoError.runtimeNotFound d.override)) ∧
      (∀ (f : Runtime) (fs : List Runtime),
        (rs.filter fun rt => rt.Name = d.override) = f :: fs →
        d.detect = Except.ok ⟨f :: fs, some f, []⟩)) ∧
    (∀ (d : Detector) (rs : List Runtime),
      d.override = RNPodman →
      d.podman = some (Except.ok rs) →
      ((rs.filter fun rt => rt.Name = d.override) = [] →
        d.detect = Except.error (GoError.runtimeNotFound d.override)) ∧
      (∀ (f : Runtime) (fs : List Runtime),
        (rs.filter fun rt => rt.Name = d.override) = f :: fs →
        d.detect = Except.ok ⟨f :: fs, some f, []⟩)) := by
  refine ⟨?_, ?_, ?_⟩
  · intro d rs hmem hoci
    have hne : d.override ≠ "" := by rcases hmem with h | h | h <;> rw [h] <;> decide
    have hout : d.overrideOutcome = Except.ok (Except.ok rs) := by
      unfold Detector.overrideOutcome
      rw [if_pos hmem, hoci]
    constructor
    · intro hfil
      rw [detect_override_eq d hne, detectOverride_filter d rs hout, hfil]
    · intro f fs hfil
      rw [detect_override_eq d hne, detectOverride_filter d rs hout, hfil]
  · intro d rs hmem hcri
    have hne : d.override ≠ "" := by rcases hmem with h | h <;> rw [h] <;> decide
    have hout : d.overrideOutcome = Except.ok (Except.ok rs) := by
      unfold Detector.overrideOutcome
      rw [if_neg (by rcases hmem with h | h <;> rw [h] <;> decide), if_pos hmem, hcri]
    constructor
    · intro hfil
      rw [detect_override_eq d hne, detectOverride_filter d rs hout, hfil]
    · intro f fs hfil
      rw [detect_override_eq d hne, detectOverride_filter d rs hout, hfil]
  · intro d rs hov hpod
    have hne : d.override ≠ "" := by rw [hov]; decide
    have hout : d.overrideOutcome = Except.ok (Except.ok rs) := by
      unfold Detector.overrideOutcome
      rw [if_neg (by rw [hov]; decide), if_neg (by rw [hov]; decide), if_pos hov, hpod]
    constructor
    · intro hfil
      rw [detect_override_eq d hne, detectOverride_filter d rs hout, hfil]
    · intro f fs hfil
      rw [detect_override_eq d hne, detectOverride_filter d rs hout, hfil]

/-- Override-mode example orchestrator (for witness instantiation). -/
def dRuncOverride : Detector :=
  ⟨some (Except.ok [rtRunc, rtCrun]), none, none, "runc"⟩

/-- Witness for C5: override "runc" over a two-runtime OCI detection. -/
theorem detect_override_filter_spec_witness :
    dRuncOverride.override = RNRunc ∧
    dRuncOverride.oci = some (Except.ok [rtRunc, rtCrun]) ∧
    ([rtRunc, rtCrun].filter fun rt => rt.Name = dRuncOverride.override) = [rtRunc] ∧
    dRuncOverride.detect = Except.ok ⟨[rtRunc], some rtRunc, []⟩ :=
  ⟨rfl, rfl, by decide,
   (detect_override_filter_spec.1 dRuncOverride [rtRunc, rtCrun]
     (Or.inl rfl) rfl).2 rtRunc [] (by decide)⟩

/-! ### Lemmas about `findFirstSocket` and the containerd detector -/

theorem findFirstSocket_cons_socket (h : Host) (pth : String) (rest : List String)
    (hs : h.stat pth = FileKind.socketFile) :
    findFirstSocket h (pth :: rest) = some pth := by
  unfold findFirstSocket
  rw [hs]

theorem findFirstSocket_cons_skip (h : Host) (pth : String) (rest : List String)
    (hs : h.stat pth ≠ FileKind.socketFile) :
    findFirstSocket h (pth :: rest) = findFirstSocket h rest := by
  conv_lhs => unfold findFirstSocket
  rcases hk : h.stat pth with _ | _ | _
  · rfl
  · exact absurd hk hs
  · rfl

theorem findFirstSocket_none (h : Host) (paths : List String)
    (hall : ∀ q ∈ paths, h.stat q ≠ FileKind.socketFile) :
    findFirstSocket h paths = none := by
  induction paths with
  | nil => rfl
  | cons p rest ih =>
    rw [findFirstSocket_cons_skip h p rest (hall p (List.mem_cons_self p rest))]
    exact ih fun q hq => hall q (List.mem_cons_of_mem p hq)

theorem containerd_detect_getVersion (d : ContainerdDetector) (h : Host)
    (pth : String) (hfind : findFirstSocket h d.socketPaths = some pth) :
    d.Detect h =
      match h.criVersion pth with
      | Except.error e => Except.error (GoError.versionQueryFailed e)
      | Except.ok version =>
        Except.ok [{ Name := Containerd, Typ := TypeCRI, Version := version,
                     Path := pth, Priority := PriorityCRI }] := by
  unfold ContainerdDetector.Detect ContainerdDetector.findSocket
  rw [hfind]

/-- C7: the socket-family detector scans its socket-path list in order,
stopping at the first path whose stat is a socket-type file; a path
present as a non-socket entry is skipped exactly like an absent one.
If no path qualifies, `Detect` fails with the "socket not found" error
(no runtimes); if the version query on the first qualifying path
succeeds, `Detect` returns exactly one `Runtime` whose path is that
socket path, with the CRI priority class and type and the queried
version. -/
theorem containerd_detect_spec :
    (∀ (h : Host) (pth : String) (rest : List String),
      h.stat pth = FileKind.socketFile →
      findFirstSocket h (pth :: rest) = some pth) ∧
    (∀ (h : Host) (pth : String) (rest : List String),
      h.stat pth ≠ FileKind.socketFile →
      findFirstSocket h (pth :: rest) = findFirstSocket h rest) ∧
    (∀ (h : Host) (paths : List String),
      (∀ q ∈ paths, h.stat q ≠ FileKind.socketFile) →
      findFirstSocket h paths = none) ∧
    (∀ (d : ContainerdDetector) (h : Host),
      findFirstSocket h d.socketPaths = none →
      d.Detect h = Except.error (GoError.socketNotFound
        (GoError.noAccessibleSocket d.socketPaths))) ∧
    (∀ (d : ContainerdDetector) (h : Host) (pth v : String),
      findFirstSocket h d.socketPaths = some pth →
      h.criVersion pth = Except.ok v →
      ∃ rt, d.Detect h = Except.ok [rt] ∧ rt.Path = pth ∧
        rt.Priority = PriorityCRI ∧ rt.Typ = TypeCRI ∧ rt.Version = v) := by
  refine ⟨findFirstSocket_cons_socket, findFirstSocket_cons_skip,
    findFirstSocket_none, ?_, ?_⟩
  · intro d h hnone
    unfold ContainerdDetector.Detect ContainerdDetector.findSocket
    rw [hnone]
  · intro d h pth v hfind hver
    refine ⟨⟨Containerd, TypeCRI, v, pth, PriorityCRI⟩, ?_, rfl, rfl, rfl, rfl⟩
    rw [containerd_detect_getVersion d h pth hfind, hver]

/-- A host with only the primary containerd socket present and a live
CRI endpoint (for witness instantiation). -/
def hostDemo : Host :=
  ⟨fun p => if p = "/run/containerd/containerd.sock" then FileKind.socketFile
            else FileKind.absent,
   fun _ => Except.ok "1.7.13"⟩

/-- Witness for C7: the default detector on `hostDemo`. -/
theorem containerd_detect_spec_witness :
    findFirstSocket hostDemo NewContainerdDetector.socketPaths =
        some "/run/containerd/containerd.sock" ∧
    hostDemo.criVersion "/run/containerd/containerd.sock" = Except.ok "1.7.13" ∧
    ∃ rt, NewContainerdDetector.Detect hostDemo = Except.ok [rt] ∧
      rt.Path = "/run/containerd/containerd.sock" ∧
      rt.Priority = PriorityCRI ∧ rt.Typ = TypeCRI ∧ rt.Version = "1.7.13" :=
  ⟨by decide, rfl,
   containerd_detect_spec.2.2.2.2 NewContainerdDetector hostDemo
     "/run/containerd/containerd.sock" "1.7.13" (by decide) rfl⟩

/-- C10: "crio" is a recognized override routed to the CRI detector
slot (with no CRI detector configured it fails "CRI detector not
configured"), but the containerd detector only ever produces runtimes
named `Containerd`; so with the containerd detector as the CRI
detector, override "crio" never succeeds on any host: it yields either
the detector's own failure (wrapped as "failed to detect runtime") or
a "runtime not found" failure after the exact-name filter. -/
theorem crio_override_never_succeeds :
    (∀ (o p : Slot),
      Detector.detect ⟨o, none, p, RNCRIO⟩ =
        Except.error (GoError.notConfigured "CRI" RNCRIO)) ∧
    (∀ (cd : ContainerdDetector) (h : Host) (o p : Slot),
      (∃ e, Detector.detect ⟨o, some (cd.Detect h), p, RNCRIO⟩ =
          Except.error (GoError.detectFailed RNCRIO e)) ∨
        Detector.detect ⟨o, some (cd.Detect h), p, RNCRIO⟩ =
          Except.error (GoError.runtimeNotFound RNCRIO)) := by
  constructor
  · intro o p
    rfl
  · intro cd h o p
    rcases hE : ContainerdDetector.Detect cd h with e | rs
    · exact Or.inl ⟨e, rfl⟩
    · right
      unfold ContainerdDetector.Detect at hE
      split at hE
      · simp at hE
      · split at hE
        · simp at hE
        · rw [Except.ok.injEq] at hE
          subst hE
          rfl

end OTC
